import Mathlib

/-!
Verification development for the market-analysis dashboard's data/analytics core.

The definitions below are a shallow embedding of the TypeScript source:
* `src/utils/dataGenerator.ts` — deterministic synthetic data generation
  (`generateComprehensiveData`, `getData`, `clearDataCache`, `filterDataframe`);
* `src/pages/MarketAnalysis.tsx` — aggregation (`generateSegmentChartData`,
  `getDataValue`), derived metrics (bubble CAGR, year-over-year growth) and
  the bubble-chart layout (index-based pre-layout positions and the
  iterative overlap-relaxation loop).

JavaScript numbers are modelled as exact rationals (`ℚ`) in the generator and
aggregation code, and as reals (`ℝ`) where the source uses `Math.pow`,
`Math.sqrt` and trigonometric functions.  `Math.floor(seededRandom() * n)`
for the integer LCG state `s < 233280` equals `s * n / 233280` in natural
division exactly (the rational `s / 233280 * n` and `s * n / 233280` are the
same number, and double rounding cannot move it across an integer because the
gap to the nearest integer is at least `1 / 233280`, far above double-precision
error at these magnitudes).
-/

/-- One synthetic market observation, mirroring `interface ShovelMarketData`.
Integral fields (`recordId`, `year`) are `ℕ`; `Math.floor`ed quantities
(`volumeUnits`, `qty`) are `ℤ`; other numeric measures are `ℚ`. -/
structure ShovelMarketData where
  recordId : Nat
  year : Nat
  region : String
  country : String
  serviceType : String
  endUserType : String
  deliveryChannel : String
  businessModel : String
  productType : String
  bladeMaterial : String
  handleLength : String
  application : String
  endUser : String
  distributionChannelType : String
  distributionChannel : String
  brand : String
  company : String
  price : ℚ
  volumeUnits : ℤ
  qty : ℤ
  revenue : ℚ
  marketValueUsd : ℚ
  value : ℚ
  marketSharePct : ℚ
  cagr : ℚ
  yoyGrowth : ℚ
  deriving DecidableEq, Repr

/-- `years = Array.from({ length: 15 }, (_, i) => 2021 + i)`. -/
def genYears : List Nat := (List.range 15).map (fun i => 2021 + i)

/-- The six regions. -/
def regions : List String :=
  ["North America", "Europe", "APAC", "Latin America", "Middle East", "Africa"]

/-- The seven service types. -/
def serviceTypes : List String :=
  ["Personal Branding & Executive Consulting",
   "Digital Presence & Branding Consulting",
   "Transition & Career Image Coaching",
   "Corporate & Institutional Image Training",
   "Educational & Scalable Branding Programs",
   "Public Figure & Media Image Consulting",
   "Others (Communication & Presence Coaching, etc.)"]

/-- The seven end-user types. -/
def endUserTypes : List String :=
  ["Senior Executives & Professionals",
   "Transitioning Military Personnel",
   "Youth & Students (High School / College)",
   "Public Figures",
   "Government Officials",
   "Corporate Teams (HR, Sales, Leadership)",
   "Everyday Professionals (Emerging Workforce)"]

/-- The three delivery channels. -/
def deliveryChannels : List String :=
  ["In-Person Consulting", "Virtual / Online Consulting", "Hybrid Engagement"]

/-- The six business models. -/
def businessModels : List String :=
  ["Premium One-on-One Consulting",
   "Subscription-Based Digital Coaching",
   "Corporate Contracts / Retainers",
   "Online Course / Self-paced Learning",
   "Hybrid Workshop + eLearning",
   "Licensing / Affiliate Programs"]

/-- Legacy dimension: product types (By Pyrolysis Method). -/
def productTypes : List String :=
  ["Slow Pyrolysis", "Fast Pyrolysis", "Intermediate Pyrolysis", "Dry Distillation"]

/-- Legacy dimension: blade materials (By Source Material). -/
def bladeMaterials : List String :=
  ["Hardwood", "Softwood", "Bamboo", "Coconut Shell / Palm Waste", "Fruitwood",
   "Others (Sawdust, Crop Residue, Mixed Biomass)"]

/-- Legacy dimension: handle lengths (By Product Grade). -/
def handleLengths : List String :=
  ["Agricultural Grade", "Industrial Grade", "Pharmaceutical / Food Grade"]

/-- Legacy dimension: applications (By Form). -/
def applications : List String :=
  ["Liquid", "Powder / Solid", "Concentrate / Distilled"]

/-- Legacy dimension: end users (By Application main category). -/
def endUsers : List String :=
  ["Agriculture & Farming",
   "Animal Feed & Husbandry",
   "Food & Beverage",
   "Pharmaceuticals & Healthcare",
   "Personal Care & Cosmetics",
   "Activated Carbon & Charcoal Production",
   "Others (Bioenergy & Chemicals etc.)"]

/-- `applicationSubtypes` record, as a total map; the `|| []` fallback of the
source makes any unlisted key yield `[]`. -/
def applicationSubtypes : String → List String
  | "Agriculture & Farming" =>
      ["Bio-Pesticide", "Soil Conditioner", "Plant Growth Promoter", "Compost Accelerator"]
  | "Animal Feed & Husbandry" => ["Feed Additive", "Odor Control"]
  | "Food & Beverage" => ["Natural Flavoring"]
  | "Pharmaceuticals & Healthcare" => ["Antiseptic", "Detoxification Agent"]
  | "Personal Care & Cosmetics" => ["Skincare Products", "Deodorants"]
  | "Activated Carbon & Charcoal Production" => ["Carbonization Aid", "Quality Enhancer"]
  | _ => []

/-- The ten brands. -/
def brands : List String :=
  ["Fiskars", "Bully Tools", "Razor-Back", "Truper", "Ames",
   "Spear & Jackson", "Radius Garden", "Seymour", "Union Tools", "Garant"]

/-- The ten companies. -/
def companies : List String :=
  ["Fiskars Corporation", "Bully Tools Inc", "Razor-Back Tools", "Truper Herramientas",
   "Ames True Temper", "Spear & Jackson", "Radius Garden", "Seymour Manufacturing",
   "Union Tools", "Garant GP"]

/-- `countryMap` record, as a total map; the `|| []` fallback of the source
makes any unlisted key yield `[]`. -/
def countryMap : String → List String
  | "North America" => ["U.S.", "Canada"]
  | "Europe" => ["U.K.", "Germany", "Italy", "France", "Spain", "Russia"]
  | "APAC" => ["China", "India", "Japan", "South Korea", "Australia"]
  | "Latin America" => ["Brazil", "Argentina", "Mexico", "Peru"]
  | "Middle East" => ["GCC", "Israel"]
  | "Africa" => ["South Africa"]
  | _ => []

/-- Multiplier triple for `productTypeMultipliers` entries. -/
structure ProductMult where
  price : ℚ
  volume : ℚ
  cagr : ℚ
  deriving DecidableEq, Repr

/-- Multiplier pair with `price` and `volume` components. -/
structure PVMult where
  price : ℚ
  volume : ℚ
  deriving DecidableEq, Repr

/-- `productTypeMultipliers`; generated keys always hit a listed entry, so the
default branch is unreachable from generation. -/
def productTypeMultipliers : String → ProductMult
  | "Slow Pyrolysis" => ⟨1.0, 1.2, 1.1⟩
  | "Fast Pyrolysis" => ⟨1.1, 1.3, 1.2⟩
  | "Intermediate Pyrolysis" => ⟨1.05, 1.1, 1.05⟩
  | "Dry Distillation" => ⟨0.9, 1.0, 1.0⟩
  | _ => ⟨1, 1, 1⟩

/-- `bladeMaterialMultipliers`; default branch unreachable from generation. -/
def bladeMaterialMultipliers : String → PVMult
  | "Hardwood" => ⟨1.2, 1.3⟩
  | "Softwood" => ⟨1.0, 1.4⟩
  | "Bamboo" => ⟨1.1, 1.2⟩
  | "Coconut Shell / Palm Waste" => ⟨0.9, 1.1⟩
  | "Fruitwood" => ⟨1.3, 0.9⟩
  | "Others (Sawdust, Crop Residue, Mixed Biomass)" => ⟨0.8, 1.0⟩
  | _ => ⟨1, 1⟩

/-- `applicationMultipliers` (fields listed as `volume, price` in the source;
we keep the named-field structure so order is irrelevant). -/
def applicationMultipliers : String → PVMult
  | "Liquid" => { volume := 1.5, price := 1.2 }
  | "Powder / Solid" => { volume := 1.0, price := 0.9 }
  | "Concentrate / Distilled" => { volume := 0.8, price := 1.4 }
  | _ => ⟨1, 1⟩

/-- `endUserMultipliers`; default branch unreachable from generation. -/
def endUserMultipliers : String → PVMult
  | "Agriculture & Farming" => { volume := 1.5, price := 1.0 }
  | "Animal Feed & Husbandry" => { volume := 1.2, price := 1.1 }
  | "Food & Beverage" => { volume := 0.8, price := 1.4 }
  | "Pharmaceuticals & Healthcare" => { volume := 0.7, price := 1.6 }
  | "Personal Care & Cosmetics" => { volume := 1.0, price := 1.3 }
  | "Activated Carbon & Charcoal Production" => { volume := 1.3, price := 1.1 }
  | "Others (Bioenergy & Chemicals etc.)" => { volume := 1.0, price := 1.0 }
  | _ => ⟨1, 1⟩

/-- Multiplier pair with `volume` and `marketShare` components. -/
structure RegionMult where
  volume : ℚ
  marketShare : ℚ
  deriving DecidableEq, Repr

/-- `regionMultipliers`; default branch unreachable from generation. -/
def regionMultipliers : String → RegionMult
  | "North America" => ⟨1.5, 1.4⟩
  | "Europe" => ⟨1.3, 1.3⟩
  | "APAC" => ⟨1.8, 1.5⟩
  | "Latin America" => ⟨1.1, 0.9⟩
  | "Middle East" => ⟨0.9, 1.1⟩
  | "Africa" => ⟨1.2, 0.8⟩
  | _ => ⟨1, 1⟩

/-- `brandPremiumMap[brand] = 0.8 + (idx % 3) * 0.4` for `idx` the brand's
position in `brands`; the `|| 1.0` fallback covers unlisted brands. -/
def brandPremiumMap (brand : String) : ℚ :=
  if brand ∈ brands then 0.8 + ((brands.indexOf brand % 3 : ℕ) : ℚ) * 0.4
  else 1.0

/-- One step of the linear-congruential generator:
`seed = (seed * 9301 + 49297) % 233280`. -/
def lcgNext (seed : Nat) : Nat := (seed * 9301 + 49297) % 233280

/-- The value returned by one `seededRandom()` call whose updated internal
state is `s`: `s / 233280 ∈ [0, 1)`. -/
def ratOf (s : Nat) : ℚ := (s : ℚ) / 233280

/-- `Math.floor(seededRandom() * n)` for updated LCG state `s`: equals the
natural-number division `s * n / 233280` exactly (see the header note). -/
def drawIdx (s n : Nat) : Nat := s * n / 233280

/-- `Math.round(x * 100) / 100`: JavaScript `Math.round` is
`floor(x + 1/2)` (half rounds toward positive infinity). -/
def round2 (q : ℚ) : ℚ := ((⌊q * 100 + 1/2⌋ : ℤ) : ℚ) / 100

/-- The seven-dimensional loop index of the generator's nested `for` loops:
one record is emitted per `Combo`. -/
structure Combo where
  year : Nat
  region : String
  country : String
  serviceType : String
  endUserType : String
  deliveryChannel : String
  businessModel : String
  deriving DecidableEq, Repr

/-- The loop body of `generateComprehensiveData` for one combination:
given the next `recordId` and the current LCG state, produce the record and
the LCG state after all draws of this iteration.  Draws occur in source
order; the application-subtype draw happens only when the subtype list for
the drawn `endUser` is non-empty (the ternary's `seededRandom()` call is
conditional). -/
def mkRecord (recordId : Nat) (seed : Nat) (c : Combo) : ShovelMarketData × Nat :=
  let regionMult := regionMultipliers c.region
  let s1 := lcgNext seed
  let productType := productTypes.getD (drawIdx s1 productTypes.length) ""
  let productMult := productTypeMultipliers productType
  let s2 := lcgNext s1
  let bladeMaterial := bladeMaterials.getD (drawIdx s2 bladeMaterials.length) ""
  let bladeMult := bladeMaterialMultipliers bladeMaterial
  let s3 := lcgNext s2
  let handleLength := handleLengths.getD (drawIdx s3 handleLengths.length) ""
  let handleMult : ℚ :=
    if handleLength = "Long Handle" then 1.1
    else if handleLength = "Short Handle" then 0.9 else 1.0
  let s4 := lcgNext s3
  let application := applications.getD (drawIdx s4 applications.length) ""
  let appMult := applicationMultipliers application
  let s5 := lcgNext s4
  let endUser := endUsers.getD (drawIdx s5 endUsers.length) ""
  let userMult := endUserMultipliers endUser
  let s6 := lcgNext s5
  let isDirect := ratOf s6 > 0.5
  let distributionChannelType := if isDirect then "Direct" else "Indirect (Via Distributors)"
  let subtypes := applicationSubtypes endUser
  let distributionChannel :=
    if 0 < subtypes.length then subtypes.getD (drawIdx (lcgNext s6) subtypes.length) ""
    else endUser
  let s7 := if 0 < subtypes.length then lcgNext s6 else s6
  let s8 := lcgNext s7
  let brand := brands.getD (drawIdx s8 brands.length) ""
  let brandMult := brandPremiumMap brand
  let s9 := lcgNext s8
  let company := companies.getD (drawIdx s9 companies.length) ""
  let s10 := lcgNext s9
  let basePrice : ℚ := 10 + ratOf s10 * 90
  let price : ℚ := basePrice * productMult.price * bladeMult.price * brandMult *
    (1 + ((c.year : ℚ) - 2021) * 0.02)
  let s11 := lcgNext s10
  let baseVolume : ℚ := 100 + ratOf s11 * 900
  let volumeUnits : ℤ := ⌊baseVolume * regionMult.volume * productMult.volume *
    bladeMult.volume * appMult.volume * userMult.volume * handleMult *
    (1 + ((c.year : ℚ) - 2021) * 0.05)⌋
  let revenue : ℚ := price * (volumeUnits : ℚ)
  let s12 := lcgNext s11
  let marketValueUsd : ℚ := revenue * (0.9 + ratOf s12 * 0.2)
  let s13 := lcgNext s12
  let baseMarketShare : ℚ := 1 + ratOf s13 * 24
  let marketSharePct : ℚ := baseMarketShare * regionMult.marketShare * brandMult
  let s14 := lcgNext s13
  let baseCAGR : ℚ := -2 + ratOf s14 * 12
  let cagr : ℚ := baseCAGR * productMult.cagr
  let s15 := lcgNext s14
  let yoyGrowth : ℚ := -5 + ratOf s15 * 20
  let s16 := lcgNext s15
  let qty : ℤ := ⌊(volumeUnits : ℚ) * (0.8 + ratOf s16 * 0.4)⌋
  (⟨recordId, c.year, c.region, c.country, c.serviceType, c.endUserType,
    c.deliveryChannel, c.businessModel, productType, bladeMaterial, handleLength,
    application, endUser, distributionChannelType, distributionChannel, brand,
    company, round2 price, volumeUnits, qty, round2 revenue, round2 marketValueUsd,
    round2 marketValueUsd, round2 marketSharePct, round2 cagr, round2 yoyGrowth⟩, s16)

/-- The generation loop: emit one record per combination, threading the
`recordId` counter and the LCG state. -/
def genFrom (recordId : Nat) (seed : Nat) : List Combo → List ShovelMarketData
  | [] => []
  | c :: cs => (mkRecord recordId seed c).1 :: genFrom (recordId + 1) (mkRecord recordId seed c).2 cs

/-- The list of loop combinations, in the nested-loop iteration order
`year × region × country × serviceType × endUserType × deliveryChannel × businessModel`. -/
def allCombos : List Combo :=
  genYears.flatMap fun y =>
    regions.flatMap fun rg =>
      (countryMap rg).flatMap fun c =>
        serviceTypes.flatMap fun st =>
          endUserTypes.flatMap fun eut =>
            deliveryChannels.flatMap fun dc =>
              businessModels.map fun bm => ⟨y, rg, c, st, eut, dc, bm⟩

/-- `generateComprehensiveData`: `recordId` starts at `100000`, the LCG seed
is reset to the constant `42` at the start of every call. -/
def generateComprehensiveData : List ShovelMarketData :=
  genFrom 100000 42 allCombos

/-- The module-level cache `let dataCache: ShovelMarketData[] | null = null`. -/
structure DataState where
  cache : Option (List ShovelMarketData)
  deriving DecidableEq

/-- `getData`, parameterized by the (possibly throwing) generation step so the
`try`/`catch` can be stated: a thrown exception (`Except.error`) is caught and
the cache is populated with `[]`. -/
def getDataWith (gen : Except String (List ShovelMarketData)) :
    DataState → List ShovelMarketData × DataState
  | ⟨some d⟩ => (d, ⟨some d⟩)
  | ⟨none⟩ =>
    match gen with
    | Except.ok d => (d, ⟨some d⟩)
    | Except.error _ => ([], ⟨some []⟩)

/-- `getData` as in the source: the generation step is the total
`generateComprehensiveData`, which never throws. -/
def getData : DataState → List ShovelMarketData × DataState :=
  getDataWith (Except.ok generateComprehensiveData)

/-- `clearDataCache`: resets the module-level cache to `null`. -/
def clearDataCache (_s : DataState) : DataState := ⟨none⟩

/-- The dimensions filterable through `FilterOptions` (its index signature
admits any record field; we model the record's categorical fields plus
`year`). -/
inductive FilterField where
  | year | region | country | serviceType | endUserType | deliveryChannel
  | businessModel | productType | bladeMaterial | handleLength | application
  | endUser | distributionChannelType | distributionChannel | brand | company
  deriving DecidableEq, Repr

/-- The record's value at a filter dimension, as the string the filter
compares: `filterDataframe` stringifies both sides for `year`
(`values.map(v => String(v)).includes(String(itemValue))`), and compares
the other dimensions directly. -/
def fieldString : FilterField → ShovelMarketData → String
  | .year, d => toString d.year
  | .region, d => d.region
  | .country, d => d.country
  | .serviceType, d => d.serviceType
  | .endUserType, d => d.endUserType
  | .deliveryChannel, d => d.deliveryChannel
  | .businessModel, d => d.businessModel
  | .productType, d => d.productType
  | .bladeMaterial, d => d.bladeMaterial
  | .handleLength, d => d.handleLength
  | .application, d => d.application
  | .endUser, d => d.endUser
  | .distributionChannelType, d => d.distributionChannelType
  | .distributionChannel, d => d.distributionChannel
  | .brand, d => d.brand
  | .company, d => d.company

/-- One `(field, values)` entry of a `FilterOptions` object, with the
selection values in their stringified form. -/
structure FilterConstraint where
  field : FilterField
  values : List String
  deriving DecidableEq, Repr

/-- One pass of `filterDataframe`'s `for (const [field, values] of
Object.entries(filters))` body: an empty selection list imposes no
constraint, a non-empty one keeps records whose field value is a member. -/
def applyConstraint (l : List ShovelMarketData) (c : FilterConstraint) :
    List ShovelMarketData :=
  if c.values.isEmpty then l
  else l.filter (fun d => c.values.contains (fieldString c.field d))

/-- `filterDataframe`: fold every constraint entry over the data, in entry
order. -/
def filterDataframe (l : List ShovelMarketData) (cs : List FilterConstraint) :
    List ShovelMarketData :=
  cs.foldl applyConstraint l

/-- `getDataValue`: `volumeUnits || 0` under `'By Volume'`, else
`(marketValueUsd || 0) / 1000` (thousand→million rebasing). -/
def getDataValue (byVolume : Bool) (d : ShovelMarketData) : ℚ :=
  if byVolume then (d.volumeUnits : ℚ) else d.marketValueUsd / 1000

/-- Structural insertion step for ascending `Nat` sorting. -/
def insertLeNat (x : Nat) : List Nat → List Nat
  | [] => [x]
  | y :: ys => if x ≤ y then x :: y :: ys else y :: insertLeNat x ys

/-- Ascending sort of a `Nat` list (insertion sort; same result as
JavaScript's `.sort()` for the four-digit years in play). -/
def sortNat (l : List Nat) : List Nat := l.foldr insertLeNat []

/-- Structural insertion step for ascending `String` sorting. -/
def insertLeStr (x : String) : List String → List String
  | [] => [x]
  | y :: ys => if x ≤ y then x :: y :: ys else y :: insertLeStr x ys

/-- Ascending sort of a `String` list (insertion sort; same sorted result as
JavaScript's default lexicographic `.sort()`). -/
def sortStr (l : List String) : List String := l.foldr insertLeStr []

/-- `[...new Set(filteredData.map(d => d.year))].sort()`: the distinct years,
sorted ascending (all generated years are four-digit, so JavaScript's string
sort coincides with numeric order). -/
def sortedYears (l : List ShovelMarketData) : List Nat :=
  sortNat ((l.map (fun d => d.year)).dedup)

/-- The segment universe of `generateSegmentChartData`: the explicit selected
list when non-empty (falsy entries dropped, then sorted), otherwise the
distinct non-empty segment values occurring in the data, sorted. -/
def pivotSegments (l : List ShovelMarketData) (segOf : ShovelMarketData → String)
    (selectedSegments : Option (List String)) : List String :=
  let segmentsFromData := sortStr (((l.map segOf).filter (fun s => !(s == ""))).dedup)
  match selectedSegments with
  | some ss => if 0 < ss.length then sortStr (ss.filter (fun s => !(s == "")))
    else segmentsFromData
  | none => segmentsFromData

/-- The accumulated `segmentMap` value at key `` `${year}-${segment}` ``:
the sum of the metric over records with that year and segment value (the
string key is injective because the year's decimal digits contain no dash,
so we index by the pair directly); a missing key reads as `0` via `|| 0`,
which coincides with the empty sum. -/
def pivotValue (l : List ShovelMarketData) (segOf : ShovelMarketData → String)
    (byVolume : Bool) (y : Nat) (seg : String) : ℚ :=
  ((l.filter (fun d => d.year == y && segOf d == seg)).map (getDataValue byVolume)).sum

/-- `generateSegmentChartData`'s `chartData`: one row per sorted year, each
row holding the year and one `(segment, value)` entry per segment of the
segment universe. -/
def generateSegmentChartData (l : List ShovelMarketData)
    (segOf : ShovelMarketData → String) (selectedSegments : Option (List String))
    (byVolume : Bool) : List (Nat × List (String × ℚ)) :=
  let segments := pivotSegments l segOf selectedSegments
  (sortedYears l).map fun y =>
    (y, segments.map fun seg => (seg, pivotValue l segOf byVolume y seg))

/-- The Year-over-Year value of `yoyCagrDataByEntity` at one `(yearIndex,
segmentType)` cell: `segValue` is the `(yearSegmentDataMap.get(year) ||
Map).get(segmentType) || 0` lookup for the fixed segment, `yearsSorted` the
ascending year list. -/
def yoyValueAt (yearsSorted : List Nat) (segValue : Nat → ℚ) (yearIndex : Nat) : ℚ :=
  if 0 < yearIndex then
    let previousValue := segValue (yearsSorted.getD (yearIndex - 1) 0)
    if 0 < previousValue then
      ((segValue (yearsSorted.getD yearIndex 0) - previousValue) / previousValue) * 100
    else 0
  else 0

/-- The rows of the YoY `chartData`: one row per year index, one
`(segmentType, yoy)` entry per selected segment type. -/
def yoyChartData (yearsSorted : List Nat) (segValue : String → Nat → ℚ)
    (selectedSegmentTypes : List String) : List (List (String × ℚ)) :=
  (List.range yearsSorted.length).map fun i =>
    selectedSegmentTypes.map fun seg => (seg, yoyValueAt yearsSorted (segValue seg) i)

/-- The bubble-chart CAGR computation (`bubbleChartDataByCategory`, first
pass): `cagr = (pow(endValue/startValue, 1/(endYear-startYear)) - 1) * 100`
when both endpoint values are strictly positive, else `0`; then
`cagr = Math.max(0, cagr)`. -/
noncomputable def bubbleCagr (startValue endValue : ℝ) (startYear endYear : Nat) : ℝ :=
  let cagr0 : ℝ :=
    if 0 < startValue ∧ 0 < endValue then
      ((endValue / startValue) ^ ((1 : ℝ) / ((endYear : ℝ) - (startYear : ℝ))) - 1) * 100
    else 0
  max 0 cagr0

/-- The sorted distinct non-empty category values of the bubble chart's
grouping step (`categoryDataMap` keys, then `[...items].sort()`). -/
def bubbleCats {α : Type} (data : List α) (catOf : α → String) : List String :=
  sortStr (((data.map catOf).filter (fun s => !(s == ""))).dedup)

/-- One element of `rawBubbleData` (source lines 833–883): the raw CAGR and
market share are computed, then overwritten by the index-based spacing
formulas before being returned. -/
noncomputable def rawBubbleItem {α : Type} (data : List α) (catOf : α → String)
    (valueOf : α → ℝ) (yearOf : α → Nat) (allItemsTotal : ℝ) (numItems : Nat)
    (index : Nat) (item : String) : String × ℝ × ℝ × ℝ :=
  let values := (data.filter (fun d => catOf d == item)).map valueOf
  let yearsList := (data.filter (fun d => catOf d == item)).map yearOf
  let startYear : Nat := 2025
  let endYear : Nat := 2032
  let startValues := ((values.zip yearsList).filter (fun vy => vy.2 == startYear)).map (fun vy => vy.1)
  let endValues := ((values.zip yearsList).filter (fun vy => vy.2 == endYear)).map (fun vy => vy.1)
  let startValue : ℝ := if 0 < startValues.length then startValues.sum / startValues.length else 0
  let endValue : ℝ := if 0 < endValues.length then endValues.sum / endValues.length else 0
  let cagrReal := bubbleCagr startValue endValue startYear endYear
  let itemTotal := values.sum
  let marketShareReal : ℝ := if 0 < allItemsTotal then itemTotal / allItemsTotal * 100 else 0
  -- the source overwrites both values with index-based synthetic spacing:
  let cagr : ℝ := ((index : ℝ) / max 1 ((numItems : ℝ) - 1)) * 25.0
  let goldenRatio : ℝ := 1.618
  let sharePosition : ℝ :=
    (((index : ℝ) * goldenRatio) - (numItems : ℝ) * ⌊((index : ℝ) * goldenRatio) / (numItems : ℝ)⌋) /
      max 1 ((numItems : ℝ) - 1)
  let marketShare : ℝ := sharePosition * 30.0
  let incrementalOpportunity := endValue - startValue
  -- returned object: {region: item, cagr, marketShare, incrementalOpportunity: |..|};
  -- the dead pre-overwrite values cagrReal/marketShareReal do not escape.
  let _dead : ℝ × ℝ := (cagrReal, marketShareReal)
  (item, cagr, marketShare, |incrementalOpportunity|)

/-- `rawBubbleData`: one entry per sorted category, in sorted order, carrying
`(region, cagr, marketShare, incrementalOpportunity)`. -/
noncomputable def rawBubbleData {α : Type} (data : List α) (catOf : α → String)
    (valueOf : α → ℝ) (yearOf : α → Nat) : List (String × ℝ × ℝ × ℝ) :=
  let sortedItems := bubbleCats data catOf
  let allItemsTotal := (data.map valueOf).sum
  sortedItems.enum.map fun iv =>
    rawBubbleItem data catOf valueOf yearOf allItemsTotal sortedItems.length iv.1 iv.2

/-- The index-based pre-layout CAGR formula the source substitutes for the
computed CAGR: `(index / Math.max(1, numItems - 1)) * 25.0`. -/
noncomputable def preLayoutCagr (index numItems : Nat) : ℝ :=
  ((index : ℝ) / max 1 ((numItems : ℝ) - 1)) * 25.0

/-- The index-based pre-layout market-share formula:
`(((index * 1.618) % numItems) / Math.max(1, numItems - 1)) * 30.0`, where
`%` is JavaScript's floating-point remainder (floor-based here since both
operands are non-negative). -/
noncomputable def preLayoutShare (index numItems : Nat) : ℝ :=
  ((((index : ℝ) * 1.618) - (numItems : ℝ) * ⌊((index : ℝ) * 1.618) / (numItems : ℝ)⌋) /
      max 1 ((numItems : ℝ) - 1)) * 30.0

/-- A bubble position in normalized index space: `(cagrIndex, marketShareIndex)`. -/
abbrev BubblePt := ℝ × ℝ

/-- The 2D distance `Math.sqrt(dx*dx + dy*dy)` between two bubble centers. -/
noncomputable def bubbleDist (p q : BubblePt) : ℝ :=
  Real.sqrt ((p.1 - q.1) * (p.1 - q.1) + (p.2 - q.2) * (p.2 - q.2))

/-- `Math.atan2(dy, dx)` as the argument of the complex number `dx + dy·i`. -/
noncomputable def atan2 (dy dx : ℝ) : ℝ := Complex.arg ⟨dx, dy⟩

/-- The displacement the relaxation adds to bubble `p` on account of bubble
`q`: zero unless `0.001 < dist < 3.5`, else a push of `(3.5 - dist) * 0.8`
along the connecting direction. -/
noncomputable def bubblePush (p q : BubblePt) : BubblePt :=
  let dx := p.1 - q.1
  let dy := p.2 - q.2
  let distance := bubbleDist p q
  if distance < 3.5 ∧ 0.001 < distance then
    let angle := atan2 dy dx
    let pushDistance := (3.5 - distance) * 0.8
    (Real.cos angle * pushDistance, Real.sin angle * pushDistance)
  else (0, 0)

/-- `Math.max(-2, Math.min(12, x))`: the post-iteration clamp. -/
noncomputable def bubbleClamp (p : BubblePt) : BubblePt :=
  (max (-2) (min 12 p.1), max (-2) (min 12 p.2))

/-- One iteration of the relaxation loop: every bubble accumulates pushes
against every *other* bubble's position at the start of the iteration
(the `adjustedData.map` closure reads the pre-iteration array), then is
clamped.  `bubblePush p p = (0, 0)` since the self-distance `0` fails the
`> 0.001` guard, mirroring the `i === j` skip. -/
noncomputable def relaxStep (pts : List BubblePt) : List BubblePt :=
  pts.enum.map fun ip =>
    let pushes := (pts.enum.filter (fun jq => !(jq.1 == ip.1))).map fun jq => bubblePush ip.2 jq.2
    bubbleClamp (ip.2.1 + (pushes.map Prod.fst).sum, ip.2.2 + (pushes.map Prod.snd).sum)

/-- `hasOverlap` at the end of an iteration that started from `pts`: some
pair of distinct indices is at distance strictly between `0.001` and `3.5`. -/
def overlapExists (pts : List BubblePt) : Prop :=
  ∃ i j : Fin pts.length, (i : Nat) ≠ (j : Nat) ∧
    bubbleDist (pts.get i) (pts.get j) < 3.5 ∧ 0.001 < bubbleDist (pts.get i) (pts.get j)

open Classical in
/-- The relaxation `for` loop with fuel: each round runs one `relaxStep`;
if the round found no overlap (checked against the round's starting
positions, as in the source) the loop breaks with that round's output. -/
noncomputable def relaxLoop : Nat → List BubblePt → List BubblePt
  | 0, pts => pts
  | Nat.succ n, pts =>
    let nextPts := relaxStep pts
    if overlapExists pts then relaxLoop n nextPts else nextPts

/-- The full relaxation with the source's iteration cap `maxIterations = 100`. -/
noncomputable def relaxBubbles (pts : List BubblePt) : List BubblePt :=
  relaxLoop 100 pts

/-- All bubble positions within the clamp bounds `[-2, 12]` (true of every
relaxation input: normalized positions lie in `[0, 10]`). -/
def ptsInBounds (pts : List BubblePt) : Prop :=
  ∀ p ∈ pts, -2 ≤ p.1 ∧ p.1 ≤ 12 ∧ -2 ≤ p.2 ∧ p.2 ≤ 12

theorem lcgNext_lt (s : Nat) : lcgNext s < 233280 :=
  Nat.mod_lt _ (by norm_num)

theorem drawIdx_lt {s n : Nat} (hs : s < 233280) (hn : 0 < n) : drawIdx s n < n := by
  unfold drawIdx
  rw [Nat.div_lt_iff_lt_mul (by norm_num : 0 < 233280)]
  calc s * n < 233280 * n := Nat.mul_lt_mul_of_pos_right hs hn
    _ = n * 233280 := Nat.mul_comm _ _

/-- The subtype-or-fallback expression of the generator satisfies the
distribution-channel invariant for any end user and any LCG state. -/
theorem distChannel_spec (eu : String) (s : Nat) :
    (if applicationSubtypes eu = [] then
       (if 0 < (applicationSubtypes eu).length then
          (applicationSubtypes eu).getD
            (drawIdx (lcgNext s) (applicationSubtypes eu).length) ""
        else eu) = eu
     else (if 0 < (applicationSubtypes eu).length then
          (applicationSubtypes eu).getD
            (drawIdx (lcgNext s) (applicationSubtypes eu).length) ""
        else eu) ∈ applicationSubtypes eu) := by
  by_cases h : applicationSubtypes eu = []
  · rw [if_pos h, if_neg (by simp [h])]
  · rw [if_neg h]
    have hlen : 0 < (applicationSubtypes eu).length := List.length_pos.mpr h
    rw [if_pos hlen]
    have hidx : drawIdx (lcgNext s) (applicationSubtypes eu).length <
        (applicationSubtypes eu).length := drawIdx_lt (lcgNext_lt s) hlen
    rw [List.getD_eq_get _ _ hidx]
    exact List.get_mem _ _ hidx

/-- Claim C1: two independent calls to the synthesizer through `getData`,
with the cache cleared between them, produce identical record sequences,
field-for-field and in the same order; both equal the generation run that
starts from the fixed reseed constant `42` (and `recordId` base `100000`). -/
theorem determinism_generate_C1 (s : DataState) :
    (getData (clearDataCache s)).1 =
      (getData (clearDataCache (getData (clearDataCache s)).2)).1 ∧
    (∀ i : Nat, ((getData (clearDataCache s)).1.get? i) =
      ((getData (clearDataCache (getData (clearDataCache s)).2)).1.get? i)) ∧
    (getData (clearDataCache s)).1 = genFrom 100000 42 allCombos :=
  ⟨rfl, fun _ => rfl, rfl⟩

/-- Claim C3: applying two single-dimension constraints one after the other
through `filterDataframe` equals applying `filterDataframe` once with both
constraints, in either order (AND semantics, order-independent). -/
theorem filter_compose_C3 (data : List ShovelMarketData) (c1 c2 : FilterConstraint) :
    filterDataframe (filterDataframe data [c1]) [c2] = filterDataframe data [c1, c2] ∧
    filterDataframe (filterDataframe data [c2]) [c1] = filterDataframe data [c2, c1] ∧
    filterDataframe data [c1, c2] = filterDataframe data [c2, c1] := by
  refine ⟨rfl, rfl, ?_⟩
  show applyConstraint (applyConstraint data c1) c2 =
    applyConstraint (applyConstraint data c2) c1
  unfold applyConstraint
  by_cases h1 : c1.values.isEmpty <;> by_cases h2 : c2.values.isEmpty <;>
    simp [h1, h2, List.filter_filter]
  exact List.filter_congr fun d _ => Bool.and_comm _ _

/-- Claim C5: the bubble-chart CAGR equals
`max 0 (((E/S)^(1/7) - 1) * 100)` for the 2025→2032 window when both
endpoint values are positive, is `0` otherwise, and takes the three claimed
boundary values. -/
theorem bubble_cagr_C5 :
    (∀ S E : ℝ, 0 < S → 0 < E →
      bubbleCagr S E 2025 2032 = max 0 (((E / S) ^ ((1 : ℝ) / 7) - 1) * 100)) ∧
    (∀ S E : ℝ, ¬(0 < S ∧ 0 < E) → bubbleCagr S E 2025 2032 = 0) ∧
    bubbleCagr 0 100 2025 2032 = 0 ∧
    bubbleCagr 100 50 2025 2032 = 0 ∧
    bubbleCagr 100 200 2025 2032 = ((2 : ℝ) ^ ((1 : ℝ) / 7) - 1) * 100 := by
  have hyear : ((2032 : Nat) : ℝ) - ((2025 : Nat) : ℝ) = 7 := by norm_num
  have hpos : ∀ S E : ℝ, 0 < S → 0 < E →
      bubbleCagr S E 2025 2032 = max 0 (((E / S) ^ ((1 : ℝ) / 7) - 1) * 100) := by
    intro S E hS hE
    unfold bubbleCagr
    rw [if_pos ⟨hS, hE⟩, hyear]
  have hneg : ∀ S E : ℝ, ¬(0 < S ∧ 0 < E) → bubbleCagr S E 2025 2032 = 0 := by
    intro S E h
    unfold bubbleCagr
    rw [if_neg h, max_self]
  refine ⟨hpos, hneg, hneg 0 100 (by norm_num), ?_, ?_⟩
  · rw [hpos 100 50 (by norm_num) (by norm_num)]
    apply max_eq_left
    have h1 : ((50 : ℝ) / 100) = 1 / 2 := by norm_num
    have h2 : ((1 : ℝ) / 2) ^ ((1 : ℝ) / 7) ≤ 1 :=
      Real.rpow_le_one (by norm_num) (by norm_num) (by norm_num)
    rw [h1]
    nlinarith
  · rw [hpos 100 200 (by norm_num) (by norm_num)]
    have h1 : ((200 : ℝ) / 100) = 2 := by norm_num
    rw [h1]
    apply max_eq_right
    have h2 : (1 : ℝ) ≤ (2 : ℝ) ^ ((1 : ℝ) / 7) :=
      Real.one_le_rpow (by norm_num) (by norm_num)
    nlinarith

/-- Witness for C5 at concrete inputs. -/
theorem bubble_cagr_C5_witness :
    bubbleCagr 100 200 2025 2032 = max 0 (((200 / 100 : ℝ) ^ ((1 : ℝ) / 7) - 1) * 100) ∧
    bubbleCagr (-3) 100 2025 2032 = 0 :=
  ⟨bubble_cagr_C5.1 100 200 (by norm_num) (by norm_num),
   bubble_cagr_C5.2.1 (-3) 100 (by norm_num)⟩

/-- Claim C6: in the Year-over-Year computation, the first year index always
yields 0; at index `i > 0` the value is `(value[i] - value[i-1]) / value[i-1]
* 100` when `value[i-1] > 0` and `0` otherwise; the first chart row carries a
`0` for every segment.  (All values are total rationals: no NaN/undefined.) -/
theorem yoy_C6 (years : List Nat) (f : Nat → ℚ) :
    yoyValueAt years f 0 = 0 ∧
    (∀ i : Nat, 0 < i → 0 < f (years.getD (i - 1) 0) →
      yoyValueAt years f i =
        ((f (years.getD i 0) - f (years.getD (i - 1) 0)) / f (years.getD (i - 1) 0)) * 100) ∧
    (∀ i : Nat, 0 < i → ¬ 0 < f (years.getD (i - 1) 0) → yoyValueAt years f i = 0) ∧
    (∀ (segValue : String → Nat → ℚ) (segs : List String),
      (yoyChartData years segValue segs).get? 0 =
        if 0 < years.length then some (segs.map fun seg => (seg, 0)) else none) := by
  refine ⟨rfl, ?_, ?_, ?_⟩
  · intro i hi hprev
    unfold yoyValueAt
    rw [if_pos hi, if_pos hprev]
  · intro i hi hprev
    unfold yoyValueAt
    rw [if_pos hi, if_neg hprev]
  · intro segValue segs
    unfold yoyChartData
    by_cases h : 0 < years.length
    · rw [if_pos h, List.get?_map, List.get?_range h]
      simp only [Option.map_some']
      congr 1
    · rw [if_neg h]
      rw [List.get?_map]
      have : years.length = 0 := Nat.eq_zero_of_not_pos h
      simp [this]

/-- Witness for C6 at a concrete series. -/
theorem yoy_C6_witness :
    yoyValueAt [2021, 2022] (fun n => if n = 2021 then 2 else 3) 1 =
      (((if (2022 : Nat) = 2021 then (2 : ℚ) else 3) -
        (if (2021 : Nat) = 2021 then (2 : ℚ) else 3)) /
        (if (2021 : Nat) = 2021 then (2 : ℚ) else 3)) * 100 ∧
    yoyValueAt [2021, 2022] (fun _ => 0) 1 = 0 :=
  ⟨(yoy_C6 [2021, 2022] (fun n => if n = 2021 then 2 else 3)).2.1 1 (by norm_num)
      (by norm_num),
   (yoy_C6 [2021, 2022] (fun _ => 0)).2.2.1 1 (by norm_num) (by norm_num)⟩

/-- Claim C7: a throwing generation step is caught by `getData`, which
returns and caches the empty sequence; every later call returns the cached
empty sequence no matter what the generation step would now do (no retry),
until `clearDataCache` resets the cache to the ungenerated state. -/
theorem getData_fail_closed_C7 :
    (∀ e : String, getDataWith (Except.error e) ⟨none⟩ = ([], ⟨some []⟩)) ∧
    (∀ gen : Except String (List ShovelMarketData),
      getDataWith gen ⟨some []⟩ = ([], ⟨some []⟩)) ∧
    (∀ gen : Except String (List ShovelMarketData),
      getDataWith gen (clearDataCache ⟨some []⟩) = getDataWith gen ⟨none⟩) :=
  ⟨fun _ => rfl, fun _ => rfl, fun _ => rfl⟩

theorem mkRecord_endUser (rid s : Nat) (c : Combo) :
    (mkRecord rid s c).1.endUser =
      endUsers.getD
        (drawIdx (lcgNext (lcgNext (lcgNext (lcgNext (lcgNext s))))) endUsers.length) "" :=
  rfl

theorem mkRecord_distChannelOk (rid s : Nat) (c : Combo) :
    (if applicationSubtypes (mkRecord rid s c).1.endUser = [] then
      (mkRecord rid s c).1.distributionChannel = (mkRecord rid s c).1.endUser
    else (mkRecord rid s c).1.distributionChannel ∈
      applicationSubtypes (mkRecord rid s c).1.endUser) :=
  distChannel_spec
    (endUsers.getD
      (drawIdx (lcgNext (lcgNext (lcgNext (lcgNext (lcgNext s))))) endUsers.length) "")
    (lcgNext (lcgNext (lcgNext (lcgNext (lcgNext (lcgNext s))))))

theorem genFrom_distChannelOk :
    ∀ (cs : List Combo) (rid s : Nat) (r : ShovelMarketData), r ∈ genFrom rid s cs →
    (if applicationSubtypes r.endUser = [] then r.distributionChannel = r.endUser
     else r.distributionChannel ∈ applicationSubtypes r.endUser) := by
  intro cs
  induction cs with
  | nil => intro rid s r hr; simp [genFrom] at hr
  | cons c t ih =>
    intro rid s r hr
    rw [genFrom, List.mem_cons] at hr
    rcases hr with h | h
    · subst h; exact mkRecord_distChannelOk rid s c
    · exact ih _ _ _ h

/-- Claim C4: every record of the generated sequence has
`distributionChannel ∈ applicationSubtypes[endUser]` when that subtype list
is non-empty, and `distributionChannel = endUser` otherwise. -/
theorem dist_channel_invariant_C4 :
    ∀ i : Nat, (generateComprehensiveData.get? i).elim True fun r =>
      if applicationSubtypes r.endUser = [] then r.distributionChannel = r.endUser
      else r.distributionChannel ∈ applicationSubtypes r.endUser := by
  intro i
  cases h : generateComprehensiveData.get? i with
  | none => exact trivial
  | some r =>
    have hr : r ∈ generateComprehensiveData := List.get?_mem h
    exact genFrom_distChannelOk allCombos 100000 42 r hr

theorem genFrom_length : ∀ (cs : List Combo) (rid s : Nat),
    (genFrom rid s cs).length = cs.length := by
  intro cs
  induction cs with
  | nil => intro rid s; rfl
  | cons c t ih => intro rid s; simp [genFrom, ih]

theorem length_flatMap_const {α β : Type} (l : List α) (f : α → List β) (k : Nat)
    (h : ∀ a ∈ l, (f a).length = k) : (l.flatMap f).length = l.length * k := by
  induction l with
  | nil => simp
  | cons a t ih =>
    rw [List.flatMap_cons, List.length_append, h a (List.mem_cons_self a t),
      ih (fun b hb => h b (List.mem_cons_of_mem a hb)), List.length_cons,
      Nat.succ_mul, Nat.add_comm]

theorem innerCombos_length (y : Nat) (rg c : String) :
    (serviceTypes.flatMap fun st =>
      endUserTypes.flatMap fun eut =>
        deliveryChannels.flatMap fun dc =>
          businessModels.map fun bm =>
            (⟨y, rg, c, st, eut, dc, bm⟩ : Combo)).length = 882 := by
  rw [length_flatMap_const _ _ 126 ?hst]
  · rfl
  case hst =>
    intro st _
    rw [length_flatMap_const _ _ 18 ?heut]
    · rfl
    case heut =>
      intro eut _
      rw [length_flatMap_const _ _ 6 ?hdc]
      · rfl
      case hdc =>
        intro dc _
        rw [List.length_map]
        rfl

theorem perYearCombos_length (y : Nat) :
    (regions.flatMap fun rg =>
      (countryMap rg).flatMap fun c =>
        serviceTypes.flatMap fun st =>
          endUserTypes.flatMap fun eut =>
            deliveryChannels.flatMap fun dc =>
              businessModels.map fun bm =>
                (⟨y, rg, c, st, eut, dc, bm⟩ : Combo)).length = 17640 := by
  rw [List.length_flatMap]
  have h : ∀ rg ∈ regions,
      ((countryMap rg).flatMap fun c =>
        serviceTypes.flatMap fun st =>
          endUserTypes.flatMap fun eut =>
            deliveryChannels.flatMap fun dc =>
              businessModels.map fun bm =>
                (⟨y, rg, c, st, eut, dc, bm⟩ : Combo)).length =
        (countryMap rg).length * 882 := fun rg _ =>
    length_flatMap_const _ _ 882 fun c _ => innerCombos_length y rg c
  rw [List.map_congr_left fun rg hrg => (Function.comp_apply ▸ h rg hrg :
    (List.length ∘ fun rg₂ =>
      ((countryMap rg₂).flatMap fun c =>
        serviceTypes.flatMap fun st =>
          endUserTypes.flatMap fun eut =>
            deliveryChannels.flatMap fun dc =>
              businessModels.map fun bm =>
                (⟨y, rg₂, c, st, eut, dc, bm⟩ : Combo))) rg =
      (countryMap rg).length * 882)]
  rfl

theorem allCombos_length : allCombos.length = 264600 := by
  unfold allCombos
  rw [length_flatMap_const _ _ 17640 fun y _ => perYearCombos_length y]
  rfl

/-- The loop-index part of a record: the seven dimensions enumerated by the
nested loops. -/
def comboOf (r : ShovelMarketData) : Combo :=
  ⟨r.year, r.region, r.country, r.serviceType, r.endUserType,
   r.deliveryChannel, r.businessModel⟩

theorem mkRecord_recordId (rid s : Nat) (c : Combo) :
    (mkRecord rid s c).1.recordId = rid := rfl

theorem mkRecord_comboOf (rid s : Nat) (c : Combo) :
    comboOf (mkRecord rid s c).1 = c := rfl

theorem genFrom_get?_recordId :
    ∀ (cs : List Combo) (rid s i : Nat),
    ((genFrom rid s cs).get? i).map (fun r => r.recordId) =
      (cs.get? i).map (fun _ => rid + i) := by
  intro cs
  induction cs with
  | nil => intro rid s i; rfl
  | cons c t ih =>
    intro rid s i
    cases i with
    | zero => rfl
    | succ k =>
      rw [genFrom]
      show ((genFrom (rid + 1) (mkRecord rid s c).2 t).get? k).map (fun r => r.recordId) =
        (t.get? k).map (fun _ => rid + (k + 1))
      rw [ih (rid + 1) (mkRecord rid s c).2 k]
      have : rid + 1 + k = rid + (k + 1) := by omega
      rw [this]

theorem genFrom_get?_comboOf :
    ∀ (cs : List Combo) (rid s i : Nat),
    ((genFrom rid s cs).get? i).map comboOf = cs.get? i := by
  intro cs
  induction cs with
  | nil => intro rid s i; rfl
  | cons c t ih =>
    intro rid s i
    cases i with
    | zero =>
      show some (comboOf (mkRecord rid s c).1) = some c
      rw [mkRecord_comboOf]
    | succ k => exact ih (rid + 1) (mkRecord rid s c).2 k

/-- Claim C10: the generated sequence has exactly 264600 records — one per
loop combination (year × country-within-region × serviceType × endUserType ×
deliveryChannel × businessModel), in loop order — and `recordId` runs
consecutively from 100000 (so the last record has id
`100000 + 264599 = 364599`). -/
theorem generation_count_C10 :
    generateComprehensiveData.length = 264600 ∧
    allCombos.length = 264600 ∧
    (∀ i : Nat, (generateComprehensiveData.get? i).map (fun r => r.recordId) =
      if i < 264600 then some (100000 + i) else none) ∧
    (∀ i : Nat, (generateComprehensiveData.get? i).map comboOf = allCombos.get? i) ∧
    (generateComprehensiveData.get? 264599).map (fun r => r.recordId) = some 364599 := by
  have hlen : generateComprehensiveData.length = 264600 := by
    rw [generateComprehensiveData, genFrom_length, allCombos_length]
  have hid : ∀ i : Nat, (generateComprehensiveData.get? i).map (fun r => r.recordId) =
      if i < 264600 then some (100000 + i) else none := by
    intro i
    rw [generateComprehensiveData, genFrom_get?_recordId]
    by_cases h : i < 264600
    · rw [if_pos h]
      have hlt : i < allCombos.length := by rw [allCombos_length]; exact h
      rw [List.get?_eq_get hlt]
      rfl
    · rw [if_neg h, List.get?_eq_none.mpr (by rw [allCombos_length]; omega)]
      rfl
  refine ⟨hlen, allCombos_length, hid, ?_, ?_⟩
  · intro i
    rw [generateComprehensiveData, genFrom_get?_comboOf]
  · rw [hid 264599, if_pos (by norm_num)]

theorem sum_map_add {α : Type} (l : List α) (f g : α → ℚ) :
    (l.map fun x => f x + g x).sum = (l.map f).sum + (l.map g).sum := by
  induction l with
  | nil => simp
  | cons a t ih => simp only [List.map_cons, List.sum_cons, ih]; ring

theorem sum_if_eq_count (x : String) (q : ℚ) :
    ∀ segs : List String,
    (segs.map fun seg => if x = seg then q else 0).sum = (segs.count x : ℚ) * q := by
  intro segs
  induction segs with
  | nil => simp
  | cons s ss ih =>
    rw [List.map_cons, List.sum_cons, ih, List.count_cons]
    by_cases h : x = s
    · subst h
      rw [if_pos rfl, beq_self_eq_true, if_pos rfl]
      push_cast
      ring
    · have hbeq : (s == x) = false := beq_eq_false_iff_ne.mpr fun he => h he.symm
      rw [if_neg h, hbeq, if_neg (by simp), Nat.add_zero, zero_add]

theorem pivotValue_cons (d : ShovelMarketData) (t : List ShovelMarketData)
    (segOf : ShovelMarketData → String) (bv : Bool) (y : Nat) (seg : String) :
    pivotValue (d :: t) segOf bv y seg =
      (if d.year = y ∧ segOf d = seg then getDataValue bv d else 0) +
        pivotValue t segOf bv y seg := by
  unfold pivotValue
  rw [List.filter_cons]
  by_cases h1 : d.year = y <;> by_cases h2 : segOf d = seg <;>
    simp [h1, h2]

/-- Exchanging the two summations of the pivot: summing the per-segment
accumulations over a segment list counts each record once per occurrence of
its segment value in the list. -/
theorem pivot_sum_swap (segs : List String) (segOf : ShovelMarketData → String)
    (bv : Bool) (y : Nat) :
    ∀ l : List ShovelMarketData,
    (segs.map fun seg => pivotValue l segOf bv y seg).sum =
      ((l.filter fun d => d.year == y).map fun d =>
        (segs.count (segOf d) : ℚ) * getDataValue bv d).sum := by
  intro l
  induction l with
  | nil =>
    have h0 : ∀ seg, pivotValue [] segOf bv y seg = 0 := fun _ => rfl
    simp [h0]
  | cons d t ih =>
    have hcons : (segs.map fun seg => pivotValue (d :: t) segOf bv y seg) =
        segs.map fun seg =>
          (if d.year = y ∧ segOf d = seg then getDataValue bv d else 0) +
            pivotValue t segOf bv y seg :=
      List.map_congr_left fun seg _ => pivotValue_cons d t segOf bv y seg
    rw [hcons, sum_map_add, ih, List.filter_cons]
    by_cases hy : d.year = y
    · have hb : (d.year == y) = true := beq_iff_eq.mpr hy
      rw [hb]
      simp only [if_true, List.map_cons, List.sum_cons]
      have : (segs.map fun seg =>
          if d.year = y ∧ segOf d = seg then getDataValue bv d else 0) =
          segs.map fun seg => if segOf d = seg then getDataValue bv d else 0 :=
        List.map_congr_left fun seg _ => by rw [if_congr (and_iff_right hy) rfl rfl]
      rw [this, sum_if_eq_count]
    · have hb : (d.year == y) = false := beq_eq_false_iff_ne.mpr hy
      rw [hb]
      simp only [if_false, Bool.false_eq_true]
      have : (segs.map fun seg =>
          if d.year = y ∧ segOf d = seg then getDataValue bv d else 0) =
          segs.map fun _ => (0 : ℚ) :=
        List.map_congr_left fun seg _ => if_neg fun hc => hy hc.1
      rw [this]
      simp

/-- Claim C2 (amended): for every filtered record set, explicit segment list
and metric selector, the pivot has one row per (sorted, distinct) year with
one entry per segment of the processed segment universe, each entry holding
the accumulated metric (0 when no record contributed); and — provided the
processed segment universe is duplicate-free and contains the segment value
of every record — each year's row sum equals the metric total over that
year's records. -/
theorem pivot_complete_C2 (l : List ShovelMarketData)
    (segOf : ShovelMarketData → String) (ss : List String) (byVolume : Bool)
    (hnd : (pivotSegments l segOf (some ss)).Nodup)
    (hcov : ∀ d ∈ l, segOf d ∈ pivotSegments l segOf (some ss)) :
    ((generateSegmentChartData l segOf (some ss) byVolume).map Prod.fst = sortedYears l) ∧
    (∀ i : Nat,
      ((generateSegmentChartData l segOf (some ss) byVolume).get? i).map
          (fun row => row.2.map Prod.fst) =
        ((sortedYears l).get? i).map fun _ => pivotSegments l segOf (some ss)) ∧
    (∀ (y : Nat) (seg : String), (l.filter fun d => d.year == y && segOf d == seg) = [] →
      pivotValue l segOf byVolume y seg = 0) ∧
    (∀ y : Nat,
      ((pivotSegments l segOf (some ss)).map fun seg =>
          pivotValue l segOf byVolume y seg).sum =
        ((l.filter fun d => d.year == y).map (getDataValue byVolume)).sum) ∧
    (∀ i : Nat,
      ((generateSegmentChartData l segOf (some ss) byVolume).get? i).map
          (fun row => (row.2.map Prod.snd).sum) =
        ((sortedYears l).get? i).map fun y =>
          ((l.filter fun d => d.year == y).map (getDataValue byVolume)).sum) := by
  have hsum : ∀ y : Nat,
      ((pivotSegments l segOf (some ss)).map fun seg =>
          pivotValue l segOf byVolume y seg).sum =
        ((l.filter fun d => d.year == y).map (getDataValue byVolume)).sum := by
    intro y
    rw [pivot_sum_swap]
    congr 1
    refine List.map_congr_left fun d hd => ?_
    have hdl : d ∈ l := List.mem_of_mem_filter hd
    rw [List.count_eq_one_of_mem hnd (hcov d hdl), Nat.cast_one, one_mul]
  refine ⟨?_, ?_, ?_, hsum, ?_⟩
  · unfold generateSegmentChartData
    rw [List.map_map]
    exact List.map_id'' (fun _ => rfl) _
  · intro i
    unfold generateSegmentChartData
    rw [List.get?_map]
    cases h : (sortedYears l).get? i with
    | none => rfl
    | some y =>
      simp only [Option.map_some', List.map_map]
      congr 1
      exact List.map_id'' (fun _ => rfl) _
  · intro y seg hfil
    unfold pivotValue
    rw [hfil]
    rfl
  · intro i
    unfold generateSegmentChartData
    rw [List.get?_map]
    cases h : (sortedYears l).get? i with
    | none => rfl
    | some y =>
      simp only [Option.map_some', List.map_map]
      rw [← hsum y]
      rfl

/-- A concrete record used for counterexamples and witnesses: year 2021,
serviceType "A", marketValueUsd 5000. -/
def sampleRecord : ShovelMarketData :=
  { recordId := 100000, year := 2021, region := "North America", country := "U.S.",
    serviceType := "A", endUserType := "E", deliveryChannel := "D", businessModel := "B",
    productType := "P", bladeMaterial := "BM", handleLength := "H", application := "F",
    endUser := "EU", distributionChannelType := "Direct", distributionChannel := "DC",
    brand := "Br", company := "Co", price := 10, volumeUnits := 1, qty := 1,
    revenue := 10, marketValueUsd := 5000, value := 5000, marketSharePct := 1,
    cagr := 1, yoyGrowth := 1 }

/-- Counterexample to C2 as stated: with the one-record set
`[sampleRecord]` (segment value "A", metric 5) and the explicit segment list
`["B"]`, every (year, segment) pair appears with value 0, but the 2021 row
sum is 0, not the year's metric total 5. -/
theorem pivot_complete_C2_counterexample :
    ((generateSegmentChartData [sampleRecord] (fun d => d.serviceType) (some ["B"]) false).map
        fun row => (row.2.map Prod.snd).sum) = [0] ∧
    (([sampleRecord].filter fun d => d.year == 2021).map (getDataValue false)).sum = 5 ∧
    ¬ (((pivotSegments [sampleRecord] (fun d => d.serviceType) (some ["B"])).map fun seg =>
          pivotValue [sampleRecord] (fun d => d.serviceType) false 2021 seg).sum =
        (([sampleRecord].filter fun d => d.year == 2021).map (getDataValue false)).sum) := by
  have hseg : pivotSegments [sampleRecord] (fun d => d.serviceType) (some ["B"]) = ["B"] := by
    simp [pivotSegments, sortStr, insertLeStr]
  have hyears : sortedYears [sampleRecord] = [2021] := by
    simp [sortedYears, sortNat, insertLeNat, sampleRecord]
  have hpv : pivotValue [sampleRecord] (fun d => d.serviceType) false 2021 "B" = 0 := by
    simp [pivotValue, sampleRecord]
  have h5 : (([sampleRecord].filter fun d => d.year == 2021).map (getDataValue false)).sum =
      (5 : ℚ) := by
    simp [sampleRecord, getDataValue]
    norm_num
  refine ⟨?_, h5, ?_⟩
  · unfold generateSegmentChartData
    rw [hseg, hyears]
    simp [hpv]
  · intro h
    rw [hseg, h5] at h
    simp [hpv] at h

/-- Witness for (amended) C2 at a concrete covered instance. -/
theorem pivot_complete_C2_witness :
    ((generateSegmentChartData [sampleRecord] (fun d => d.serviceType) (some ["A"]) false).map
      Prod.fst = sortedYears [sampleRecord]) ∧
    (((pivotSegments [sampleRecord] (fun d => d.serviceType) (some ["A"])).map fun seg =>
          pivotValue [sampleRecord] (fun d => d.serviceType) false 2021 seg).sum =
        (([sampleRecord].filter fun d => d.year == 2021).map (getDataValue false)).sum) := by
  have hsegA : pivotSegments [sampleRecord] (fun d => d.serviceType) (some ["A"]) = ["A"] := by
    simp [pivotSegments, sortStr, insertLeStr]
  have h := pivot_complete_C2 [sampleRecord] (fun d => d.serviceType) ["A"] false
    (by rw [hsegA]; simp)
    (by intro d hd; rw [List.mem_singleton] at hd; subst hd; rw [hsegA]
        simp [sampleRecord])
  exact ⟨h.1, h.2.2.2.1 2021⟩

/-- Claim C9: the pre-layout bubble positions depend only on the sorted
category-name list — each category at rank `index` among `numItems` gets
CAGR `(index / max(1, numItems-1)) * 25` and market share
`((index * 1.618) mod numItems) / max(1, numItems-1) * 30`, regardless of
the underlying numeric data (the computed CAGR/share magnitudes are
overwritten). -/
theorem bubble_prelayout_C9 {α : Type} (data1 data2 : List α)
    (catOf : α → String) (valueOf1 valueOf2 : α → ℝ) (yearOf1 yearOf2 : α → Nat)
    (hcats : bubbleCats data1 catOf = bubbleCats data2 catOf) :
    ((rawBubbleData data1 catOf valueOf1 yearOf1).map fun b => (b.1, b.2.1, b.2.2.1)) =
      ((rawBubbleData data2 catOf valueOf2 yearOf2).map fun b => (b.1, b.2.1, b.2.2.1)) ∧
    (∀ i : Nat,
      ((rawBubbleData data1 catOf valueOf1 yearOf1).get? i).map (fun b => (b.2.1, b.2.2.1)) =
        ((bubbleCats data1 catOf).get? i).map fun _ =>
          (preLayoutCagr i (bubbleCats data1 catOf).length,
           preLayoutShare i (bubbleCats data1 catOf).length)) := by
  constructor
  · unfold rawBubbleData
    rw [hcats, List.map_map, List.map_map]
    exact List.map_congr_left fun ip _ => rfl
  · intro i
    unfold rawBubbleData
    rw [List.get?_map, List.get?_enum]
    cases h : (bubbleCats data1 catOf).get? i with
    | none => rfl
    | some item => rfl

/-- Witness for C9: two different concrete data sets with the same category
set receive identical pre-layout positions. -/
theorem bubble_prelayout_C9_witness :
    ((rawBubbleData ["A"] (fun s => s) (fun _ => (7 : ℝ)) (fun _ => 2025)).map
        fun b => (b.1, b.2.1, b.2.2.1)) =
      ((rawBubbleData ["A", "A"] (fun s => s) (fun _ => (3 : ℝ)) (fun _ => 2032)).map
        fun b => (b.1, b.2.1, b.2.2.1)) := by
  have hcats : bubbleCats ["A"] (fun s : String => s) =
      bubbleCats ["A", "A"] (fun s : String => s) := by
    simp [bubbleCats, sortStr, insertLeStr]
  exact (bubble_prelayout_C9 ["A"] ["A", "A"] (fun s => s) (fun _ => (7 : ℝ))
    (fun _ => (3 : ℝ)) (fun _ => 2025) (fun _ => 2032) hcats).1

/-- Every pair of distinct bubble indices is separated by at least the
minimum distance 3.5 — or sits within the 0.001 coincidence threshold the
relaxation never resolves. -/
def pairwiseSeparated (pts : List BubblePt) : Prop :=
  ∀ i j : Fin pts.length, (i : Nat) ≠ (j : Nat) →
    3.5 ≤ bubbleDist (pts.get i) (pts.get j) ∨
      bubbleDist (pts.get i) (pts.get j) ≤ 0.001

theorem not_overlap_iff_separated (pts : List BubblePt) :
    ¬ overlapExists pts ↔ pairwiseSeparated pts := by
  unfold overlapExists pairwiseSeparated
  constructor
  · intro h i j hij
    rcases le_or_lt (3.5 : ℝ) (bubbleDist (pts.get i) (pts.get j)) with hle | hlt
    · exact Or.inl hle
    · rcases le_or_lt (bubbleDist (pts.get i) (pts.get j)) (0.001 : ℝ) with hle2 | hlt2
      · exact Or.inr hle2
      · exact absurd ⟨i, j, hij, hlt, hlt2⟩ h
  · rintro h ⟨i, j, hij, hlt, hgt⟩
    rcases h i j hij with hle | hle2
    · exact absurd hlt (not_lt.mpr hle)
    · exact absurd hgt (not_lt.mpr hle2)

theorem relaxStep_inBounds (pts : List BubblePt) : ptsInBounds (relaxStep pts) := by
  intro p hp
  unfold relaxStep at hp
  rw [List.mem_map] at hp
  obtain ⟨ip, _, rfl⟩ := hp
  unfold bubbleClamp
  refine ⟨le_max_left _ _, ?_, le_max_left _ _, ?_⟩
  · exact max_le (by norm_num) (min_le_left _ _)
  · exact max_le (by norm_num) (min_le_left _ _)

/-- If an iteration starts with every pair already separated (no overlap)
and all points inside the clamp window, the iteration moves nothing. -/
theorem relaxStep_id (pts : List BubblePt) (hb : ptsInBounds pts)
    (hov : ¬ overlapExists pts) : relaxStep pts = pts := by
  unfold relaxStep
  have hmap : ∀ ip ∈ pts.enum,
      (bubbleClamp
        (ip.2.1 + (((pts.enum.filter (fun jq => !(jq.1 == ip.1))).map
            (fun jq => bubblePush ip.2 jq.2)).map Prod.fst).sum,
         ip.2.2 + (((pts.enum.filter (fun jq => !(jq.1 == ip.1))).map
            (fun jq => bubblePush ip.2 jq.2)).map Prod.snd).sum)) = ip.2 := by
    rintro ⟨i, p⟩ hip
    have hget : pts.get? i = some p := List.mem_enum_iff_get?.mp hip
    obtain ⟨hi, hgeti⟩ := List.get?_eq_some.mp hget
    have hpush : ∀ jq ∈ pts.enum.filter (fun jq => !(jq.1 == i)),
        bubblePush p jq.2 = (0, 0) := by
      rintro ⟨j, q⟩ hjq
      rw [List.mem_filter] at hjq
      have hne : j ≠ i := by simpa using hjq.2
      have hgetj : pts.get? j = some q := List.mem_enum_iff_get?.mp hjq.1
      obtain ⟨hj, hgetj'⟩ := List.get?_eq_some.mp hgetj
      unfold bubblePush
      rw [if_neg]
      rintro ⟨h1, h2⟩
      exact hov ⟨⟨i, hi⟩, ⟨j, hj⟩, fun hc => hne.symm hc,
        by rw [hgeti, hgetj']; exact h1, by rw [hgeti, hgetj']; exact h2⟩
    have hsum1 : (((pts.enum.filter (fun jq => !(jq.1 == i))).map
        (fun jq => bubblePush p jq.2)).map Prod.fst).sum = 0 := by
      refine List.sum_eq_zero ?_
      intro x hx
      rw [List.mem_map] at hx
      obtain ⟨push, hpm, rfl⟩ := hx
      rw [List.mem_map] at hpm
      obtain ⟨jq, hjq, rfl⟩ := hpm
      rw [hpush jq hjq]
    have hsum2 : (((pts.enum.filter (fun jq => !(jq.1 == i))).map
        (fun jq => bubblePush p jq.2)).map Prod.snd).sum = 0 := by
      refine List.sum_eq_zero ?_
      intro x hx
      rw [List.mem_map] at hx
      obtain ⟨push, hpm, rfl⟩ := hx
      rw [List.mem_map] at hpm
      obtain ⟨jq, hjq, rfl⟩ := hpm
      rw [hpush jq hjq]
    obtain ⟨hb1, hb2, hb3, hb4⟩ := hb p (List.get?_mem hget)
    show bubbleClamp (p.1 + _, p.2 + _) = p
    rw [hsum1, hsum2, add_zero, add_zero]
    unfold bubbleClamp
    rw [min_eq_right hb2, max_eq_right hb1, min_eq_right hb4, max_eq_right hb3]
  rw [List.map_congr_left hmap]
  exact List.enum_map_snd pts

open Classical in
theorem relaxLoop_succ (n : Nat) (pts : List BubblePt) :
    relaxLoop (n + 1) pts =
      if overlapExists pts then relaxLoop n (relaxStep pts) else relaxStep pts := rfl

/-- The relaxation loop either sees an overlap at the start of each of its
`n` rounds, or ends with every pair separated-or-coincident. -/
theorem relaxLoop_spec : ∀ (n : Nat) (pts : List BubblePt), ptsInBounds pts →
    (∀ k < n, overlapExists (relaxStep^[k] pts)) ∨
      ¬ overlapExists (relaxLoop n pts) := by
  intro n
  induction n with
  | zero => intro pts _; exact Or.inl fun k hk => absurd hk (Nat.not_lt_zero k)
  | succ m ih =>
    intro pts hb
    by_cases hov : overlapExists pts
    · rcases ih (relaxStep pts) (relaxStep_inBounds pts) with h | h
      · refine Or.inl fun k hk => ?_
        cases k with
        | zero => exact hov
        | succ k' =>
          rw [Function.iterate_succ_apply]
          exact h k' (Nat.lt_of_succ_lt_succ hk)
      · rw [relaxLoop_succ, if_pos hov]
        exact Or.inr h
    · rw [relaxLoop_succ, if_neg hov, relaxStep_id pts hb hov]
      exact Or.inr hov

/-- Claim C8 (amended): for inputs within the clamp window `[-2, 12]` (all
normalized inputs are), after the loop either an overlap was present at the
start of each of the 100 iterations (cap reached), or every pair of distinct
output points is at distance ≥ 3.5 — or within the 0.001 coincidence
threshold, which the relaxation never separates; and when an iteration finds
no overlap the loop stops with its input unchanged. -/
theorem bubble_relax_C8 (pts : List BubblePt) (hb : ptsInBounds pts) :
    ((∀ k < 100, overlapExists (relaxStep^[k] pts)) ∨
      pairwiseSeparated (relaxBubbles pts)) ∧
    (¬ overlapExists pts → relaxBubbles pts = pts) := by
  constructor
  · rcases relaxLoop_spec 100 pts hb with h | h
    · exact Or.inl h
    · exact Or.inr ((not_overlap_iff_separated _).mp h)
  · intro hov
    unfold relaxBubbles
    rw [relaxLoop_succ, if_neg hov, relaxStep_id pts hb hov]

/-- Two bubbles at the same position `(5, 5)`. -/
noncomputable def coincidentPts : List BubblePt := [((5 : ℝ), 5), ((5 : ℝ), 5)]

theorem bubbleDist_self (p : BubblePt) : bubbleDist p p = 0 := by
  unfold bubbleDist
  rw [sub_self, mul_zero, sub_self, mul_zero, add_zero]
  exact Real.sqrt_zero

theorem coincident_no_overlap : ¬ overlapExists coincidentPts := by
  rintro ⟨i, j, _, _, hgt⟩
  have hall : ∀ k : Fin coincidentPts.length, coincidentPts.get k = ((5 : ℝ), 5) := by
    intro k
    match k with
    | ⟨0, _⟩ => rfl
    | ⟨1, _⟩ => rfl
  rw [hall i, hall j, bubbleDist_self] at hgt
  norm_num at hgt

/-- Counterexample to C8 as stated: on two coincident in-bounds points the
very first iteration reports no overlap, so the loop exits early — far
before the 100-iteration cap — yet the two distinct output points are at
distance 0, not at least `3.5 - ε`. -/
theorem bubble_relax_C8_counterexample :
    ¬ overlapExists coincidentPts ∧
    relaxBubbles coincidentPts = coincidentPts ∧
    coincidentPts.get? 0 = some ((5 : ℝ), 5) ∧
    coincidentPts.get? 1 = some ((5 : ℝ), 5) ∧
    bubbleDist ((5 : ℝ), 5) ((5 : ℝ), 5) = 0 ∧
    (0 : ℝ) < 3.5 := by
  have hb : ptsInBounds coincidentPts := by
    intro p hp
    rcases List.mem_cons.mp hp with h | h
    · subst h; norm_num
    · rw [List.mem_singleton] at h; subst h; norm_num
  refine ⟨coincident_no_overlap, ?_, rfl, rfl, bubbleDist_self _, by norm_num⟩
  unfold relaxBubbles
  rw [relaxLoop_succ, if_neg coincident_no_overlap,
    relaxStep_id coincidentPts hb coincident_no_overlap]

/-- Witness for (amended) C8 at a concrete in-bounds input: the hypotheses
are discharged at `coincidentPts` and the no-overlap early exit is applied. -/
theorem bubble_relax_C8_witness :
    relaxBubbles coincidentPts = coincidentPts := by
  have hb : ptsInBounds coincidentPts := by
    intro p hp
    rcases List.mem_cons.mp hp with h | h
    · subst h; norm_num
    · rw [List.mem_singleton] at h; subst h; norm_num
  exact (bubble_relax_C8 coincidentPts hb).2 coincident_no_overlap
